import Mathlib

/-!
Verification of the BytePS communication core declared in
`src/byteps/common/common.h` against its natural-language specification.

The header declares the data model (DataType, StatusType, QueueType, Status,
TensorShape, TensorTableEntry, TensorTable, RequestType) and the signatures of
`Status` factories, `TensorShape` operations and `GetCommandType`; the bodies
of those operations and the dispatcher control loop are not part of the
source tree here, so they are modelled from the specification where noted.
Pointer-valued / framework-supplied fields (`context`, `tensor`, `output`,
`ready_event`, `callback`, `cpubuff`) are opaque handles; the completion
callback is modelled by recording the delivered `Status` values instead of
embedding a function value.
-/

set_option autoImplicit false

namespace BytePS

/-- `#define CPU_DEVICE_ID (-1)` — device ID used for CPU (common.h line 31). -/
def CPU_DEVICE_ID : Int := -1

/-- `enum DataType` (common.h lines 35-48): exactly the seven enumerators that
are not commented out, in mshadow order. -/
inductive DataType where
  | BYTEPS_FLOAT32
  | BYTEPS_FLOAT64
  | BYTEPS_FLOAT16
  | BYTEPS_UINT8
  | BYTEPS_INT32
  | BYTEPS_INT8
  | BYTEPS_INT64
  deriving DecidableEq, Fintype

/-- Numeric value assigned to each `DataType` enumerator in common.h. -/
def DataType.toNat : DataType → Nat
  | .BYTEPS_FLOAT32 => 0
  | .BYTEPS_FLOAT64 => 1
  | .BYTEPS_FLOAT16 => 2
  | .BYTEPS_UINT8 => 3
  | .BYTEPS_INT32 => 4
  | .BYTEPS_INT8 => 5
  | .BYTEPS_INT64 => 6

/-- `enum Framework` (common.h line 51). -/
inductive Framework where
  | TENSORFLOW
  | PYTORCH
  | MXNET
  deriving DecidableEq

/-- `enum StatusType` (common.h line 53). -/
inductive StatusType where
  | OK
  | UNKNOWN_ERROR
  | PRECONDITION_ERROR
  | ABORTED
  | INVALID_ARGUMENT
  | IN_PROGRESS
  deriving DecidableEq, Fintype

/-- `enum DeviceType` (common.h line 55). -/
inductive DeviceType where
  | CPU
  | GPU
  deriving DecidableEq

/-- `enum QueueType` (common.h line 57): the pipeline stages. -/
inductive QueueType where
  | REDUCE
  | PUSH
  | PULL
  | BROADCAST
  deriving DecidableEq, Fintype

/-- `const int QueueNum = 4` (common.h line 58). -/
def QueueNum : Nat := 4

/-- `class Status` (common.h lines 60-78): a kind together with a
human-readable reason, with the in-class member initializers
`type_ = StatusType::OK` and `reason_ = ""` as field defaults. -/
structure Status where
  type_ : StatusType := StatusType.OK
  reason_ : String := ""
  deriving DecidableEq

/-- Modelled from the spec: the body of the factory `Status::OK()` is not in
the source tree (common.h only declares it); per spec §4.1 it yields the `OK`
kind, which carries no reason. -/
def Status.OK : Status := { type_ := StatusType.OK, reason_ := "" }

/-- Modelled from the spec: the body of `Status::UnknownError(message)` is not
in the source tree; per spec §4.1/§3 it yields the `UnknownError` kind
carrying the given reason. -/
def Status.UnknownError (message : String) : Status :=
  { type_ := StatusType.UNKNOWN_ERROR, reason_ := message }

/-- Modelled from the spec: the body of `Status::PreconditionError(message)`
is not in the source tree; per spec §4.1/§3 it yields the `PreconditionError`
kind carrying the given reason. -/
def Status.PreconditionError (message : String) : Status :=
  { type_ := StatusType.PRECONDITION_ERROR, reason_ := message }

/-- Modelled from the spec: the body of `Status::Aborted(message)` is not in
the source tree; per spec §4.1/§3 it yields the `Aborted` kind carrying the
given reason. -/
def Status.Aborted (message : String) : Status :=
  { type_ := StatusType.ABORTED, reason_ := message }

/-- Modelled from the spec: the body of `Status::InvalidArgument(message)` is
not in the source tree; per spec §4.1/§3 it yields the `InvalidArgument` kind
carrying the given reason. -/
def Status.InvalidArgument (message : String) : Status :=
  { type_ := StatusType.INVALID_ARGUMENT, reason_ := message }

/-- Modelled from the spec: the body of `Status::InProgress()` is not in the
source tree; per spec §4.1/§3 it yields the `InProgress` kind, which carries
no reason. -/
def Status.InProgress : Status := { type_ := StatusType.IN_PROGRESS, reason_ := "" }

/-- Modelled from the spec: the body of the query `Status::ok()` is not in the
source tree; per spec §4.1 it is "true only for `OK`". -/
def Status.ok (s : Status) : Bool := s.type_ == StatusType.OK

/-- Modelled from the spec: the body of the query `Status::in_progress()` is
not in the source tree; it reports whether the kind is `InProgress`. -/
def Status.in_progress (s : Status) : Bool := s.type_ == StatusType.IN_PROGRESS

/-- `Status::type()` accessor: returns the kind. -/
def Status.type (s : Status) : StatusType := s.type_

/-- `Status::reason()` accessor: returns the reason string. -/
def Status.reason (s : Status) : String := s.reason_

/-- The statuses reachable through the public named factory operations of
`class Status` (its only public constructors besides the default one, the
two-argument constructor being private — common.h lines 62-68, 77). -/
inductive FactoryMade : Status → Prop
  | mk_ok : FactoryMade Status.OK
  | mk_unknown (message : String) : FactoryMade (Status.UnknownError message)
  | mk_precondition (message : String) : FactoryMade (Status.PreconditionError message)
  | mk_aborted (message : String) : FactoryMade (Status.Aborted message)
  | mk_invalid (message : String) : FactoryMade (Status.InvalidArgument message)
  | mk_in_progress : FactoryMade Status.InProgress

/-- `class TensorShape` (common.h lines 80-100): a wrapper around
`std::vector<int64_t> shape_`. -/
structure TensorShape where
  shape_ : List Int
  deriving DecidableEq

/-- Modelled from the spec: the body of `TensorShape::AddDim(dim)` is not in
the source tree; per spec §3 it appends one dimension at the end. -/
def TensorShape.AddDim (s : TensorShape) (dim : Int) : TensorShape :=
  { shape_ := s.shape_ ++ [dim] }

/-- Modelled from the spec: the body of `TensorShape::AppendShape(other)` is
not in the source tree; per spec §3 it concatenates the other shape's
dimensions at the end. -/
def TensorShape.AppendShape (s other : TensorShape) : TensorShape :=
  { shape_ := s.shape_ ++ other.shape_ }

/-- `TensorShape::dims()`: the number of dimensions (size of `shape_`). -/
def TensorShape.dims (s : TensorShape) : Nat := s.shape_.length

/-- Modelled from the spec: the body of `TensorShape::num_elements()` is not
in the source tree; per spec §3 it is the running product of all dimension
sizes, starting from 1 (so an empty shape yields 1). -/
def TensorShape.num_elements (s : TensorShape) : Int :=
  s.shape_.foldl (fun acc dim => acc * dim) 1

/-- `struct TensorTableEntry` (common.h lines 144-175), restricted to its
value fields. `ps::Key` is a 64-bit unsigned key, `keys`/`lens` are arrays of
keys and lengths. Fields with in-class initializers in the source carry the
same defaults here; `key` and `last_op` have no initializer in the source and
therefore no default here. The framework-supplied handles (`context`,
`tensor`, `output`, `ready_event`, `callback`, `cpubuff`) are opaque and
omitted; callback delivery is modelled by the dispatcher below. -/
structure TensorTableEntry where
  tensor_name : String := ""
  key : Nat
  keys : List Nat := []
  lens : List Int := []
  priority : Int := 0
  version : Int := 0
  root_rank : Int := 0
  device : Int := CPU_DEVICE_ID
  last_op : QueueType
  deriving DecidableEq

/-- `using TensorTable = std::unordered_map<std::string, TensorTableEntry>`
(common.h line 176), modelled as an association list keyed by tensor name. -/
abbrev TensorTable := List (String × TensorTableEntry)

/-- Modelled from the spec: the registry operation `Submit(entry)` is not in
the source tree (the header only declares the table type); per spec §4.3 it
fails with `PreconditionError` when a record with the same tensor name is
already in flight and otherwise inserts the entry and succeeds. -/
def Submit (table : TensorTable) (entry : TensorTableEntry) : TensorTable × Status :=
  match table.lookup entry.tensor_name with
  | some _ =>
      (table, Status.PreconditionError ("Duplicate tensor name: " ++ entry.tensor_name))
  | none => ((entry.tensor_name, entry) :: table, Status.OK)

/-- Modelled from the spec: the registry operation `Lookup(name)` per spec
§4.3 returns the in-flight record or "not found". -/
def Lookup (table : TensorTable) (name : String) : Option TensorTableEntry :=
  table.lookup name

/-- Modelled from the spec: the registry operation `Retire(name)` per spec
§4.3 removes the record after its callback has been invoked. -/
def Retire (table : TensorTable) (name : String) : TensorTable :=
  table.filter (fun p => p.1 ≠ name)

/-- Modelled from the spec: the dispatcher stage loop of spec §4.4, which is
not in the source tree (the header only declares `QueueType`, `last_op` and
`StatusCallback`). The task's remaining stage sequence is `stages`; `script`
is the sequence of `Status` values observed from the readiness poll / stage
operation, one observation per dispatch step. An `InProgress` observation
requeues the task without invoking the callback (spec §4.4 step 1 and §4.1:
`InProgress` is an internal polling sentinel). A successful observation
completes the current stage and re-enqueues the task (step 3); when no stages
remain the callback is invoked with `OK` and the record retired. A failing
observation invokes the callback immediately with the failing status and
retires the record (step 4). The result is the list of stages whose
operation completed or failed, and the list of callback invocations made. -/
def runTask : List Status → List QueueType → List QueueType × List Status
  | _, [] => ([], [Status.OK])
  | [], _ :: _ => ([], [])
  | s :: script, q :: qs =>
    if s.in_progress then runTask script (q :: qs)
    else if s.ok then
      let r := runTask script qs
      (q :: r.1, r.2)
    else ([q], [s])

/-- `enum class RequestType` (common.h lines 178-180). -/
inductive RequestType where
  | kDefaultPushPull
  | kRowSparsePushPull
  | kCompressedPushPull
  deriving DecidableEq

/-- Numeric value of each `RequestType` enumerator (enum class default
numbering). -/
def RequestType.toNat : RequestType → Nat
  | .kDefaultPushPull => 0
  | .kRowSparsePushPull => 1
  | .kCompressedPushPull => 2

/-- Modelled from the spec: the body of `GetCommandType(requestType, d)` is
not in the source tree (common.h line 182 only declares it); per spec §4.5 it
deterministically combines the request kind and the data-type ordinal into a
single integer, reserving disjoint numeric ranges per request kind — here a
range of width 16 per kind, the ordinal occupying the low bits. -/
def GetCommandType (requestType : RequestType) (d : Nat) : Nat :=
  requestType.toNat * 16 + d

/-! ## Helper lemmas -/

/-- Folding multiplication from an accumulator equals the accumulator times
the list product. -/
theorem foldl_mul_eq_prod (l : List Int) (a : Int) :
    l.foldl (fun acc dim => acc * dim) a = a * l.prod := by
  induction l generalizing a with
  | nil => simp
  | cons x l ih => simp [List.foldl_cons, ih, List.prod_cons, mul_assoc]

/-- A name that `List.lookup` does not find is not among the keys. -/
theorem lookup_none_notMem (name : String) (table : TensorTable)
    (h : List.lookup name table = none) : name ∉ table.map Prod.fst := by
  induction table with
  | nil => simp
  | cons p rest ih =>
    obtain ⟨k, v⟩ := p
    cases hk : name == k with
    | true => simp [List.lookup_cons, hk] at h
    | false =>
      simp only [List.lookup_cons, hk] at h
      simp only [List.map_cons, List.mem_cons]
      rintro (heq | hmem)
      · rw [heq] at hk
        simp at hk
      · exact ih h hmem

/-! ## Claim theorems -/

/-- Over every observation script — `InProgress` polling observations
included — the dispatcher delivers at most one callback, and no delivered
status is `InProgress`. -/
theorem runTask_cbs_le_one_not_in_progress (script : List Status) (stages : List QueueType) :
    (runTask script stages).2.length ≤ 1 ∧
    ∀ s ∈ (runTask script stages).2, s.in_progress = false := by
  induction script generalizing stages with
  | nil =>
    cases stages with
    | nil =>
      have heq : runTask [] ([] : List QueueType) = ([], [Status.OK]) := rfl
      rw [heq]
      refine ⟨Nat.le_refl 1, ?_⟩
      intro t ht
      simp only [List.mem_singleton] at ht
      subst ht
      rfl
    | cons q qs =>
      have heq : runTask [] (q :: qs) = ([], []) := rfl
      rw [heq]
      exact ⟨Nat.zero_le 1, by intro t ht; simp at ht⟩
  | cons s script ih =>
    cases stages with
    | nil =>
      have heq : runTask (s :: script) ([] : List QueueType) = ([], [Status.OK]) := rfl
      rw [heq]
      refine ⟨Nat.le_refl 1, ?_⟩
      intro t ht
      simp only [List.mem_singleton] at ht
      subst ht
      rfl
    | cons q qs =>
      cases hip : s.in_progress with
      | true =>
        have heq : runTask (s :: script) (q :: qs) = runTask script (q :: qs) := by
          simp [runTask, hip]
        rw [heq]
        exact ih (q :: qs)
      | false =>
        cases hok : s.ok with
        | true =>
          have heq : runTask (s :: script) (q :: qs) =
              (q :: (runTask script qs).1, (runTask script qs).2) := by
            simp [runTask, hip, hok]
          rw [heq]
          exact ih qs
        | false =>
          have heq : runTask (s :: script) (q :: qs) = ([q], [s]) := by
            simp [runTask, hip, hok]
          rw [heq]
          refine ⟨Nat.le_refl 1, ?_⟩
          intro t ht
          simp only [List.mem_singleton] at ht
          subst ht
          exact hip

/-- As soon as the terminal (non-`InProgress`) observations in the script
cover the remaining stages — spec §4.1 only promises that each operation
eventually reports a terminal status — the dispatcher delivers a callback. -/
theorem runTask_cbs_eq_one (script : List Status) (stages : List QueueType)
    (hcov : stages.length ≤ (script.filter (fun s => !s.in_progress)).length) :
    (runTask script stages).2.length = 1 := by
  induction script generalizing stages with
  | nil =>
    have hst : stages = [] := List.length_eq_zero.mp (Nat.le_zero.mp (by simpa using hcov))
    subst hst
    rfl
  | cons s script ih =>
    cases stages with
    | nil => rfl
    | cons q qs =>
      cases hip : s.in_progress with
      | true =>
        have heq : runTask (s :: script) (q :: qs) = runTask script (q :: qs) := by
          simp [runTask, hip]
        have hcov2 : (q :: qs).length ≤ (script.filter (fun s => !s.in_progress)).length := by
          simpa [List.filter_cons, hip] using hcov
        rw [heq]
        exact ih (q :: qs) hcov2
      | false =>
        cases hok : s.ok with
        | true =>
          have heq : runTask (s :: script) (q :: qs) =
              (q :: (runTask script qs).1, (runTask script qs).2) := by
            simp [runTask, hip, hok]
          have hcov2 : qs.length ≤ (script.filter (fun s => !s.in_progress)).length := by
            simp only [List.filter_cons, hip, Bool.not_false, if_pos, List.length_cons,
              List.length_cons] at hcov ⊢
            omega
          rw [heq]
          exact ih qs hcov2
        | false =>
          have heq : runTask (s :: script) (q :: qs) = ([q], [s]) := by
            simp [runTask, hip, hok]
          rw [heq]
          rfl

/-- C1: for every task record run by the dispatcher, over any observation
script — not-ready `InProgress` polls included — at most one completion
callback is delivered and the status delivered is never `InProgress`; and as
soon as the terminal observations cover the remaining stages (spec §4.1
liveness: every operation eventually reports a terminal status), the
callback is delivered exactly once. -/
theorem callback_exactly_once_never_in_progress
    (script : List Status) (stages : List QueueType) :
    ((runTask script stages).2.length ≤ 1 ∧
      ∀ s ∈ (runTask script stages).2, s.in_progress = false) ∧
    (stages.length ≤ (script.filter (fun s => !s.in_progress)).length →
      (runTask script stages).2.length = 1) :=
  ⟨runTask_cbs_le_one_not_in_progress script stages,
    fun hcov => runTask_cbs_eq_one script stages hcov⟩

/-- Witness for C1: a one-stage broadcast task first observed not ready
(`InProgress` poll) and then completing with `OK` delivers exactly one
callback. -/
theorem callback_exactly_once_never_in_progress_witness :
    (runTask [Status.InProgress, Status.OK] [QueueType.BROADCAST]).2.length = 1 :=
  (callback_exactly_once_never_in_progress [Status.InProgress, Status.OK]
    [QueueType.BROADCAST]).2 (by decide)

/-- C2: submitting an entry whose tensor name is already in flight fails with
`PreconditionError` and leaves the registry unchanged; moreover `Submit`
preserves the at-most-one-record-per-name invariant (no duplicate keys). -/
theorem submit_duplicate_rejected (table : TensorTable) (entry : TensorTableEntry) :
    ((List.lookup entry.tensor_name table).isSome = true →
      (Submit table entry).1 = table ∧
      (Submit table entry).2.type = StatusType.PRECONDITION_ERROR) ∧
    ((table.map Prod.fst).Nodup → ((Submit table entry).1.map Prod.fst).Nodup) := by
  constructor
  · intro h
    obtain ⟨e, he⟩ := Option.isSome_iff_exists.mp h
    unfold Submit
    rw [he]
    exact ⟨rfl, rfl⟩
  · intro hnd
    cases he : List.lookup entry.tensor_name table with
    | some e => simpa [Submit, he] using hnd
    | none =>
      simp only [Submit, he, List.map_cons, List.nodup_cons]
      exact ⟨lookup_none_notMem _ _ he, hnd⟩

/-- A concrete in-flight task record used to exercise the registry model. -/
def sampleEntry : TensorTableEntry :=
  { tensor_name := "gradient_0", key := 7, last_op := QueueType.PUSH }

/-- Witness for C2: resubmitting the name `gradient_0` while it is in flight
is rejected with `PreconditionError` and the table is unchanged. -/
theorem submit_duplicate_rejected_witness :
    (Submit [("gradient_0", sampleEntry)] sampleEntry).1 = [("gradient_0", sampleEntry)] ∧
    (Submit [("gradient_0", sampleEntry)] sampleEntry).2.type = StatusType.PRECONDITION_ERROR :=
  (submit_duplicate_rejected [("gradient_0", sampleEntry)] sampleEntry).1 (by decide)

/-- C3: `GetCommandType` is deterministic — identical `(kind, ordinal)`
inputs yield identical codes — and, within the 16-wide numeric range reserved
for each request kind, distinct data-type ordinals yield distinct codes. -/
theorem get_command_type_deterministic_injective
    (r : RequestType) (d1 d2 : Nat) (h1 : d1 < 16) (h2 : d2 < 16) :
    (d1 = d2 → GetCommandType r d1 = GetCommandType r d2) ∧
    (GetCommandType r d1 = GetCommandType r d2 → d1 = d2) := by
  constructor
  · rintro rfl
    rfl
  · intro h
    unfold GetCommandType at h
    omega

/-- Witness for C3: the determinism direction at kind `kDefaultPushPull` and
ordinal 3, with the range bounds discharged. -/
theorem get_command_type_deterministic_injective_witness :
    GetCommandType RequestType.kDefaultPushPull 3 =
      GetCommandType RequestType.kDefaultPushPull 3 ∧ (3 : Nat) < 16 :=
  ⟨(get_command_type_deterministic_injective RequestType.kDefaultPushPull 3 3
      (by decide) (by decide)).1 rfl, by decide⟩

/-- C4: `num_elements()` equals the product of all dimension sizes, and a
shape with zero dimensions has `num_elements() = 1`. -/
theorem num_elements_eq_prod (s : TensorShape) :
    s.num_elements = s.shape_.prod ∧ (s.dims = 0 → s.num_elements = 1) := by
  constructor
  · simpa [TensorShape.num_elements] using foldl_mul_eq_prod s.shape_ 1
  · intro h
    have hnil : s.shape_ = [] :=
      List.length_eq_zero.mp (by simpa [TensorShape.dims] using h)
    simp [TensorShape.num_elements, hnil]

/-- Witness for C4: the empty shape has one element. -/
theorem num_elements_eq_prod_witness : (TensorShape.mk []).num_elements = 1 :=
  (num_elements_eq_prod (TensorShape.mk [])).2 rfl

/-- C5: building a shape from the empty shape by `AddDim 2`, `AddDim 3`,
`AddDim 4` gives `num_elements() = 24` and `dims() = 3`, and appending the
shape `[5]` yields the shape `[2, 3, 4, 5]`. -/
theorem shape_build_2_3_4_then_append_5 :
    ((((TensorShape.mk []).AddDim 2).AddDim 3).AddDim 4).num_elements = 24 ∧
    ((((TensorShape.mk []).AddDim 2).AddDim 3).AddDim 4).dims = 3 ∧
    ((((TensorShape.mk []).AddDim 2).AddDim 3).AddDim 4).AppendShape
        (TensorShape.mk [5]) = TensorShape.mk [2, 3, 4, 5] := by
  decide

/-- C6: every `Status` reachable through the named factory operations keeps
kind and reason synchronized: `OK` and `InProgress` carry an empty reason,
and each error factory yields its own kind carrying exactly the reason it
was constructed with. -/
theorem status_factory_invariant :
    (∀ s : Status, FactoryMade s →
      (s.type = StatusType.OK ∨ s.type = StatusType.IN_PROGRESS) → s.reason = "") ∧
    (∀ m : String, (Status.UnknownError m).type = StatusType.UNKNOWN_ERROR ∧
      (Status.UnknownError m).reason = m) ∧
    (∀ m : String, (Status.PreconditionError m).type = StatusType.PRECONDITION_ERROR ∧
      (Status.PreconditionError m).reason = m) ∧
    (∀ m : String, (Status.Aborted m).type = StatusType.ABORTED ∧
      (Status.Aborted m).reason = m) ∧
    (∀ m : String, (Status.InvalidArgument m).type = StatusType.INVALID_ARGUMENT ∧
      (Status.InvalidArgument m).reason = m) := by
  refine ⟨?_, fun m => ⟨rfl, rfl⟩, fun m => ⟨rfl, rfl⟩, fun m => ⟨rfl, rfl⟩,
    fun m => ⟨rfl, rfl⟩⟩
  rintro s hs h
  cases hs with
  | mk_ok => rfl
  | mk_in_progress => rfl
  | mk_unknown m => rcases h with h | h <;> simp [Status.type, Status.UnknownError] at h
  | mk_precondition m =>
    rcases h with h | h <;> simp [Status.type, Status.PreconditionError] at h
  | mk_aborted m => rcases h with h | h <;> simp [Status.type, Status.Aborted] at h
  | mk_invalid m => rcases h with h | h <;> simp [Status.type, Status.InvalidArgument] at h

/-- Witness for C6: the factory-made `InProgress` status carries an empty
reason. -/
theorem status_factory_invariant_witness : Status.InProgress.reason = "" :=
  status_factory_invariant.1 Status.InProgress FactoryMade.mk_in_progress (Or.inr rfl)

/-- C7: a reduction task with stages `REDUCE → PUSH → PULL` whose `REDUCE`
succeeds and whose `PUSH` fails with a terminal non-`OK` status invokes the
callback with exactly that failing status, retires after executing only
`REDUCE` and `PUSH`, and never executes `PULL`. -/
theorem push_failure_skips_pull (s : Status)
    (h1 : s.ok = false) (h2 : s.in_progress = false) :
    runTask [Status.OK, s] [QueueType.REDUCE, QueueType.PUSH, QueueType.PULL] =
      ([QueueType.REDUCE, QueueType.PUSH], [s]) ∧
    QueueType.PULL ∉
      (runTask [Status.OK, s] [QueueType.REDUCE, QueueType.PUSH, QueueType.PULL]).1 := by
  have hOKok : Status.OK.ok = true := rfl
  have hOKip : Status.OK.in_progress = false := rfl
  have heq : runTask [Status.OK, s] [QueueType.REDUCE, QueueType.PUSH, QueueType.PULL] =
      ([QueueType.REDUCE, QueueType.PUSH], [s]) := by
    simp [runTask, h1, h2, hOKok, hOKip]
  refine ⟨heq, ?_⟩
  rw [heq]
  show QueueType.PULL ∉ [QueueType.REDUCE, QueueType.PUSH]
  decide

/-- Witness for C7: a simulated transport error on `PUSH` is delivered to the
callback verbatim and `PULL` is absent from the executed stages. -/
theorem push_failure_skips_pull_witness :
    runTask [Status.OK, Status.UnknownError "transport error"]
      [QueueType.REDUCE, QueueType.PUSH, QueueType.PULL] =
      ([QueueType.REDUCE, QueueType.PUSH], [Status.UnknownError "transport error"]) :=
  (push_failure_skips_pull (Status.UnknownError "transport error")
    (by decide) (by decide)).1

/-- C8: the `DataType` enumeration is the closed seven-member set — float32,
float64, float16, uint8, int32, int8, int64 — with the mshadow ordinal values
0 through 6 and nothing else. -/
theorem datatype_enum_is_closed_seven_set :
    (∀ d : DataType, d ∈ [DataType.BYTEPS_FLOAT32, DataType.BYTEPS_FLOAT64,
        DataType.BYTEPS_FLOAT16, DataType.BYTEPS_UINT8, DataType.BYTEPS_INT32,
        DataType.BYTEPS_INT8, DataType.BYTEPS_INT64]) ∧
    List.map DataType.toNat [DataType.BYTEPS_FLOAT32, DataType.BYTEPS_FLOAT64,
        DataType.BYTEPS_FLOAT16, DataType.BYTEPS_UINT8, DataType.BYTEPS_INT32,
        DataType.BYTEPS_INT8, DataType.BYTEPS_INT64] = [0, 1, 2, 3, 4, 5, 6] := by
  decide

/-- C9: a default-constructed `Status` has kind `OK` and empty reason, so
`ok()` is true, `in_progress()` is false, and `reason()` is the empty
string. -/
theorem default_status_is_ok :
    ({} : Status).type = StatusType.OK ∧ ({} : Status).ok = true ∧
    ({} : Status).in_progress = false ∧ ({} : Status).reason = "" := by
  decide

/-- C10: a `TensorTableEntry` built with only the fields that lack in-class
initializers supplied has `device = CPU_DEVICE_ID` (the host/CPU sentinel
`-1`) and `priority = version = root_rank = 0`. -/
theorem default_entry_device_is_cpu (k : Nat) (q : QueueType) :
    ({ key := k, last_op := q } : TensorTableEntry).device = CPU_DEVICE_ID ∧
    ({ key := k, last_op := q } : TensorTableEntry).priority = 0 ∧
    ({ key := k, last_op := q } : TensorTableEntry).version = 0 ∧
    ({ key := k, last_op := q } : TensorTableEntry).root_rank = 0 ∧
    CPU_DEVICE_ID = -1 :=
  ⟨rfl, rfl, rfl, rfl, rfl⟩

end BytePS
